import Mathlib

/-!
Verification of the S3 presigned-URL FastAPI service (src/main.py).

Shallow embedding: the module-level configuration read at startup
(src/main.py lines 43-45) becomes an explicit `Config` record; the boto3
signing client (`s3_client.generate_presigned_url`, lines 77-89) becomes
an oracle function from the call's arguments to an outcome; the handler
body becomes a pure function returning the HTTP response together with
the list of signing calls it performed.  `HTTPException(status_code, detail)`
is rendered as a response whose body is the single field
`("detail", ...)`, matching FastAPI's JSON encoding of HTTPException.
-/

set_option autoImplicit false

namespace Main

/-- Startup configuration, read from the environment in src/main.py
lines 43-45.  `S3_BUCKET` and `AWS_REGION` come from `os.getenv` and are
`none` when the variable is unset.  `PRESIGNED_URL_EXPIRATION` is the
integer obtained at startup (its parsing is modelled separately below). -/
structure Config where
  S3_BUCKET : Option String
  AWS_REGION : Option String
  PRESIGNED_URL_EXPIRATION : Int
deriving DecidableEq, Repr

/-- One invocation of `s3_client.generate_presigned_url`, recording the
arguments passed at src/main.py lines 77-89: the client method name,
the `Bucket` and `Key` params, `ExpiresIn`, and `HttpMethod`. -/
structure SignCall where
  clientMethod : String
  Bucket : String
  Key : String
  ExpiresIn : Int
  HttpMethod : String
deriving DecidableEq, Repr

/-- Outcome of a signing call: a URL string, a `botocore` `ClientError`
carrying its text, or any other exception carrying its text
(the two `except` arms at src/main.py lines 93-98). -/
inductive SignOutcome where
  | ok (url : String)
  | clientError (msg : String)
  | exn (msg : String)
deriving DecidableEq, Repr

/-- An HTTP response: status code and JSON body rendered as an
association list of string fields. -/
structure Response where
  status : Nat
  body : List (String × String)
deriving DecidableEq, Repr

/-- Handler of GET /generate-presigned-url (src/main.py lines 59-98).
`sign` is the signing-client oracle; the second component of the result
is the list of signing calls performed, in order.  The guard
`if not S3_BUCKET` (line 66) is true exactly when the variable is unset
(`none`) or the empty string, Python falsiness for `Optional[str]`. -/
def generate_presigned_url (cfg : Config) (file_name : String)
    (sign : SignCall → SignOutcome) : Response × List SignCall :=
  match cfg.S3_BUCKET with
  | none =>
    (⟨500, [("detail", "Error interno del servidor: Bucket S3 no configurado.")]⟩, [])
  | some bucket =>
    if bucket = "" then
      (⟨500, [("detail", "Error interno del servidor: Bucket S3 no configurado.")]⟩, [])
    else
      let object_name := file_name
      let call : SignCall :=
        ⟨"put_object", bucket, object_name, cfg.PRESIGNED_URL_EXPIRATION, "PUT"⟩
      match sign call with
      | SignOutcome.ok url =>
        (⟨200, [("presigned_url", url), ("object_key", object_name)]⟩, [call])
      | SignOutcome.clientError e =>
        (⟨500, [("detail", "No se pudo generar la URL firmada: " ++ e)]⟩, [call])
      | SignOutcome.exn _ =>
        (⟨500, [("detail", "Error interno inesperado.")]⟩, [call])

/-- Handler of GET /health (src/main.py lines 101-103). -/
def health_check : Response :=
  ⟨200, [("status", "ok")]⟩

/-- A request routed to this application: either
GET /generate-presigned-url with an optional `file_name` query value
(`none` when the parameter is absent from the query string), or
GET /health. -/
inductive Request where
  | generatePresignedUrl (file_name : Option String)
  | health
deriving DecidableEq, Repr

/-- Dispatch of one request.  The `file_name` parameter is declared
required (`Query(...)`, src/main.py line 61); modelled from FastAPI's
documented behaviour, a request missing a required query parameter is
rejected by the framework with a 422 validation response before the
handler runs. -/
def handle_request (cfg : Config) (sign : SignCall → SignOutcome) :
    Request → Response
  | Request.generatePresignedUrl none =>
    ⟨422, [("detail", "field required")]⟩
  | Request.generatePresignedUrl (some fn) =>
    (generate_presigned_url cfg fn sign).1
  | Request.health => health_check

/-- Server step: process one request against the module-level state.
The handlers in src/main.py assign no module-level name (no `global`
statement, no mutation of `S3_BUCKET`, `PRESIGNED_URL_EXPIRATION`,
`s3_client`, or `app`), so the state after the request is the state
before it. -/
def step (sign : SignCall → SignOutcome) (st : Config) (req : Request) :
    Response × Config :=
  (handle_request st sign req, st)

/-- Process a sequence of requests, threading the module state. -/
def serve (sign : SignCall → SignOutcome) (st : Config) :
    List Request → List Response
  | [] => []
  | r :: rs => (step sign st r).1 :: serve sign (step sign st r).2 rs

/-- Test for an ASCII decimal digit, code points 48 to 57. -/
def isDig (c : Char) : Bool :=
  decide (48 ≤ c.toNat) && decide (c.toNat ≤ 57)

/-- Numeric value of a digit character. -/
def digitVal (c : Char) : Nat :=
  c.toNat - 48

/-- Whitespace stripped by Python's `int` before parsing
(space, tab, newline, vertical tab, form feed, carriage return). -/
def isPySpace (c : Char) : Bool :=
  decide (c.toNat = 32) || decide (c.toNat = 9) || decide (c.toNat = 10) ||
  decide (c.toNat = 11) || decide (c.toNat = 12) || decide (c.toNat = 13)

/-- Strip leading and trailing Python whitespace from a character list. -/
def stripPySpaces (cs : List Char) : List Char :=
  ((cs.dropWhile isPySpace).reverse.dropWhile isPySpace).reverse

/-- Consume the rest of a Python decimal digit string after its first
digit, accumulating the value: a digit continues, a single underscore
must be followed by a digit (Python allows `1_000` but rejects `1_`,
`1__0` and `_1`), anything else is a parse error. -/
def parseDigitsAux : List Char → Nat → Option Nat
  | [], acc => some acc
  | c :: rest, acc =>
    if isDig c then parseDigitsAux rest (10 * acc + digitVal c)
    else if c = '_' then
      match rest with
      | [] => none
      | d :: rest2 =>
        if isDig d then parseDigitsAux rest2 (10 * acc + digitVal d) else none
    else none

/-- Parse a Python decimal digit part: nonempty and starting with a
digit. -/
def parseDigits : List Char → Option Nat
  | [] => none
  | c :: rest => if isDig c then parseDigitsAux rest (digitVal c) else none

/-- Parse an optionally signed decimal digit part, the shape accepted
by Python's `int(str)` in base 10 after whitespace stripping. -/
def pythonIntCore : List Char → Option Int
  | [] => none
  | c :: rest =>
    if c = '+' then (parseDigits rest).map (fun n => (n : Int))
    else if c = '-' then (parseDigits rest).map (fun n => -(n : Int))
    else (parseDigits (c :: rest)).map (fun n => (n : Int))

/-- Model of Python's builtin `int(s)` on a string in base 10 (ASCII
digits): strip whitespace, then parse an optionally signed decimal
integer; `none` models the `ValueError` raised on any other input. -/
def pythonInt (s : String) : Option Int :=
  pythonIntCore (stripPySpaces s.data)

/-- Plain decimal value of a digit list, most significant first. -/
def decimalValue (cs : List Char) : Nat :=
  cs.foldl (fun a c => 10 * a + digitVal c) 0

/-- Startup computation of `PRESIGNED_URL_EXPIRATION`
(src/main.py line 45): `int(os.getenv("PRESIGNED_URL_EXPIRATION", 3600))`.
When the environment variable is unset, `int` is applied to the integer
default `3600` and yields `3600`; when it is set, its string value is
parsed by `int` in base 10.  The result `none` models the `ValueError`
that aborts module import, i.e. startup failure. -/
def startup_expiration : Option String → Option Int
  | none => some 3600
  | some s => pythonInt s

end Main

namespace Main

/-- C4: every request to GET /health returns the body
`{"status": "ok"}`, unconditionally: the handler is a constant, and
dispatch of a health request ignores the configuration and the signing
client entirely. -/
theorem health_always_ok :
    health_check = ⟨200, [("status", "ok")]⟩ ∧
    ∀ (cfg : Config) (sign : SignCall → SignOutcome),
      handle_request cfg sign Request.health = ⟨200, [("status", "ok")]⟩ := by
  refine ⟨rfl, ?_⟩
  intro cfg sign
  rfl

/-- C1: when the bucket configuration is absent (`none`) or the empty
string, GET /generate-presigned-url returns HTTP 500 with the
explanatory detail about the missing bucket, and the signing client is
not called (the call trace is empty). -/
theorem missing_bucket_500 (cfg : Config) (fn : String)
    (sign : SignCall → SignOutcome)
    (h : cfg.S3_BUCKET = none ∨ cfg.S3_BUCKET = some "") :
    generate_presigned_url cfg fn sign =
      (⟨500, [("detail", "Error interno del servidor: Bucket S3 no configurado.")]⟩, []) := by
  unfold generate_presigned_url
  rcases h with h | h <;> rw [h]
  simp

/-- Witness for C1 at a concrete unset bucket. -/
theorem missing_bucket_500_witness :
    ((⟨none, none, 3600⟩ : Config).S3_BUCKET = none ∨
      (⟨none, none, 3600⟩ : Config).S3_BUCKET = some "") ∧
    generate_presigned_url ⟨none, none, 3600⟩ "photo.png"
        (fun _ => SignOutcome.ok "https://unused") =
      (⟨500, [("detail", "Error interno del servidor: Bucket S3 no configurado.")]⟩, []) :=
  ⟨Or.inl rfl,
    missing_bucket_500 ⟨none, none, 3600⟩ "photo.png"
      (fun _ => SignOutcome.ok "https://unused") (Or.inl rfl)⟩

/-- C2: with the bucket configured (set and non-empty) and the signing
client returning a URL for the call the handler makes, the response is
status 200 with body exactly `presigned_url` (the client's URL) and
`object_key` equal to the request's `file_name`. -/
theorem success_response (cfg : Config) (b fn url : String)
    (sign : SignCall → SignOutcome)
    (hb : cfg.S3_BUCKET = some b) (hne : b ≠ "")
    (hs : sign ⟨"put_object", b, fn, cfg.PRESIGNED_URL_EXPIRATION, "PUT"⟩ =
      SignOutcome.ok url) :
    (generate_presigned_url cfg fn sign).1 =
      ⟨200, [("presigned_url", url), ("object_key", fn)]⟩ := by
  unfold generate_presigned_url
  rw [hb]
  simp [hne, hs]

/-- Witness for C2 at a concrete configuration and signing result. -/
theorem success_response_witness :
    ((⟨some "bucket", some "us-east-1", 3600⟩ : Config).S3_BUCKET = some "bucket") ∧
    "bucket" ≠ "" ∧
    (generate_presigned_url ⟨some "bucket", some "us-east-1", 3600⟩ "photo.png"
        (fun _ => SignOutcome.ok "https://s3/signed")).1 =
      ⟨200, [("presigned_url", "https://s3/signed"), ("object_key", "photo.png")]⟩ :=
  ⟨rfl, by decide,
    success_response ⟨some "bucket", some "us-east-1", 3600⟩ "bucket" "photo.png"
      "https://s3/signed" (fun _ => SignOutcome.ok "https://s3/signed")
      rfl (by decide) rfl⟩

/-- C3: with the bucket configured, the handler performs exactly one
signing call, with client method `put_object`, the configured bucket,
the request's `file_name` as the key, the configured expiration as
`ExpiresIn`, and HTTP method `PUT` — whatever the call's outcome. -/
theorem sign_call_exact (cfg : Config) (b fn : String)
    (sign : SignCall → SignOutcome)
    (hb : cfg.S3_BUCKET = some b) (hne : b ≠ "") :
    (generate_presigned_url cfg fn sign).2 =
      [⟨"put_object", b, fn, cfg.PRESIGNED_URL_EXPIRATION, "PUT"⟩] := by
  unfold generate_presigned_url
  rw [hb]
  simp only [if_neg hne]
  cases sign ⟨"put_object", b, fn, cfg.PRESIGNED_URL_EXPIRATION, "PUT"⟩ <;> rfl

/-- Witness for C3 at a concrete configuration. -/
theorem sign_call_exact_witness :
    ((⟨some "bucket", some "us-east-1", 900⟩ : Config).S3_BUCKET = some "bucket") ∧
    "bucket" ≠ "" ∧
    (generate_presigned_url ⟨some "bucket", some "us-east-1", 900⟩ "photo.png"
        (fun _ => SignOutcome.ok "https://s3/signed")).2 =
      [⟨"put_object", "bucket", "photo.png", 900, "PUT"⟩] :=
  ⟨rfl, by decide,
    sign_call_exact ⟨some "bucket", some "us-east-1", 900⟩ "bucket" "photo.png"
      (fun _ => SignOutcome.ok "https://s3/signed") rfl (by decide)⟩

/-- C5: when the signing client raises a `ClientError` with text `e`,
the handler returns HTTP 500 whose detail is the fixed prefix followed
by `e`; in particular the detail contains the underlying error's text. -/
theorem client_error_500 (cfg : Config) (b fn e : String)
    (sign : SignCall → SignOutcome)
    (hb : cfg.S3_BUCKET = some b) (hne : b ≠ "")
    (hs : sign ⟨"put_object", b, fn, cfg.PRESIGNED_URL_EXPIRATION, "PUT"⟩ =
      SignOutcome.clientError e) :
    (generate_presigned_url cfg fn sign).1 =
      ⟨500, [("detail", "No se pudo generar la URL firmada: " ++ e)]⟩ ∧
    ∃ pre, "No se pudo generar la URL firmada: " ++ e = pre ++ e := by
  constructor
  · unfold generate_presigned_url
    rw [hb]
    simp [hne, hs]
  · exact ⟨"No se pudo generar la URL firmada: ", rfl⟩

/-- Witness for C5 at a concrete `ClientError` text. -/
theorem client_error_500_witness :
    ((⟨some "bucket", none, 3600⟩ : Config).S3_BUCKET = some "bucket") ∧
    "bucket" ≠ "" ∧
    ((generate_presigned_url ⟨some "bucket", none, 3600⟩ "photo.png"
        (fun _ => SignOutcome.clientError "AccessDenied")).1 =
      ⟨500, [("detail", "No se pudo generar la URL firmada: AccessDenied")]⟩ ∧
    ∃ pre, "No se pudo generar la URL firmada: AccessDenied" =
      pre ++ "AccessDenied") :=
  ⟨rfl, by decide,
    client_error_500 ⟨some "bucket", none, 3600⟩ "bucket" "photo.png"
      "AccessDenied" (fun _ => SignOutcome.clientError "AccessDenied")
      rfl (by decide) rfl⟩

/-- C6 counterexample: when the non-client exception's text is
`"interno"`, the 500 detail — the fixed string
`"Error interno inesperado."` — does contain the underlying error's
text as a substring, refuting the claim that the detail never includes
the error's text. -/
theorem generic_500_contains_error_text :
    (generate_presigned_url ⟨some "bucket", none, 3600⟩ "photo.png"
        (fun _ => SignOutcome.exn "interno")).1 =
      ⟨500, [("detail", "Error interno inesperado.")]⟩ ∧
    ∃ pre suf, "Error interno inesperado." = pre ++ "interno" ++ suf := by
  constructor
  · rfl
  · exact ⟨"Error ", " inesperado.", by decide⟩

/-- C6 amended: when the signing call raises a non-`ClientError`
exception, the handler returns HTTP 500 with the fixed generic detail
`"Error interno inesperado."`, which does not depend on the underlying
error's text (it is never interpolated, though it may coincidentally
contain the text as a substring). -/
theorem generic_500_fixed (cfg : Config) (b fn e : String)
    (sign : SignCall → SignOutcome)
    (hb : cfg.S3_BUCKET = some b) (hne : b ≠ "")
    (hs : sign ⟨"put_object", b, fn, cfg.PRESIGNED_URL_EXPIRATION, "PUT"⟩ =
      SignOutcome.exn e) :
    (generate_presigned_url cfg fn sign).1 =
      ⟨500, [("detail", "Error interno inesperado.")]⟩ := by
  unfold generate_presigned_url
  rw [hb]
  simp [hne, hs]

/-- Witness for the amended C6 at a concrete exception text. -/
theorem generic_500_fixed_witness :
    ((⟨some "bucket", none, 3600⟩ : Config).S3_BUCKET = some "bucket") ∧
    "bucket" ≠ "" ∧
    (generate_presigned_url ⟨some "bucket", none, 3600⟩ "photo.png"
        (fun _ => SignOutcome.exn "read timeout")).1 =
      ⟨500, [("detail", "Error interno inesperado.")]⟩ :=
  ⟨rfl, by decide,
    generic_500_fixed ⟨some "bucket", none, 3600⟩ "bucket" "photo.png"
      "read timeout" (fun _ => SignOutcome.exn "read timeout")
      rfl (by decide) rfl⟩

/-- C7 counterexample: with the bucket configured and the signing
client succeeding, a request whose `file_name` is the empty string is
answered 200 with a presigned URL for the empty object key, and the
signing client is called with the empty key: the handler does not
enforce the non-empty-key invariant (src/main.py performs no validation
of `file_name`, lines 70-74). -/
theorem empty_key_not_rejected :
    generate_presigned_url ⟨some "bucket", none, 3600⟩ ""
        (fun _ => SignOutcome.ok "https://s3/signed-empty") =
      (⟨200, [("presigned_url", "https://s3/signed-empty"), ("object_key", "")]⟩,
        [⟨"put_object", "bucket", "", 3600, "PUT"⟩]) := by
  rfl

/-- C7 amended: the service performs no validation of `file_name`; an
empty `file_name` is forwarded to the signing client like any other
key, and when the client succeeds the handler answers 200 with a
presigned URL whose `object_key` is the empty string. -/
theorem empty_key_forwarded (cfg : Config) (b url : String)
    (sign : SignCall → SignOutcome)
    (hb : cfg.S3_BUCKET = some b) (hne : b ≠ "")
    (hs : sign ⟨"put_object", b, "", cfg.PRESIGNED_URL_EXPIRATION, "PUT"⟩ =
      SignOutcome.ok url) :
    generate_presigned_url cfg "" sign =
      (⟨200, [("presigned_url", url), ("object_key", "")]⟩,
        [⟨"put_object", b, "", cfg.PRESIGNED_URL_EXPIRATION, "PUT"⟩]) := by
  unfold generate_presigned_url
  rw [hb]
  simp [hne, hs]

/-- Witness for the amended C7 at a concrete configuration. -/
theorem empty_key_forwarded_witness :
    ((⟨some "bucket", none, 3600⟩ : Config).S3_BUCKET = some "bucket") ∧
    "bucket" ≠ "" ∧
    generate_presigned_url ⟨some "bucket", none, 3600⟩ ""
        (fun _ => SignOutcome.ok "https://s3/signed-empty") =
      (⟨200, [("presigned_url", "https://s3/signed-empty"), ("object_key", "")]⟩,
        [⟨"put_object", "bucket", "", 3600, "PUT"⟩]) :=
  ⟨rfl, by decide,
    empty_key_forwarded ⟨some "bucket", none, 3600⟩ "bucket"
      "https://s3/signed-empty" (fun _ => SignOutcome.ok "https://s3/signed-empty")
      rfl (by decide) rfl⟩

/-- C8 counterexample: a request to GET /generate-presigned-url with
the required `file_name` query parameter absent is answered by the
framework's validation response with status 422 — a non-200 response
whose status is not 500, refuting the claim that 500 is the only
non-success status of this endpoint. -/
theorem missing_param_422 :
    (handle_request ⟨some "bucket", none, 3600⟩
        (fun _ => SignOutcome.ok "https://s3/signed")
        (Request.generatePresignedUrl none)).status = 422 ∧
    (handle_request ⟨some "bucket", none, 3600⟩
        (fun _ => SignOutcome.ok "https://s3/signed")
        (Request.generatePresignedUrl none)).status ≠ 500 := by
  constructor
  · rfl
  · decide

/-- C8 amended: every response produced by the handler body itself has
status 200 or 500; the only other status the endpoint yields is the
framework's 422 for a request missing the required `file_name`
parameter. -/
theorem endpoint_status_codes :
    (∀ (cfg : Config) (fn : String) (sign : SignCall → SignOutcome),
      (generate_presigned_url cfg fn sign).1.status = 200 ∨
      (generate_presigned_url cfg fn sign).1.status = 500) ∧
    (∀ (cfg : Config) (sign : SignCall → SignOutcome),
      (handle_request cfg sign (Request.generatePresignedUrl none)).status = 422) := by
  constructor
  · intro cfg fn sign
    unfold generate_presigned_url
    match cfg.S3_BUCKET with
    | none => right; rfl
    | some bucket =>
      by_cases hb : bucket = ""
      · right; simp [hb]
      · simp only [if_neg hb]
        cases sign ⟨"put_object", bucket, fn, cfg.PRESIGNED_URL_EXPIRATION, "PUT"⟩
        · left; rfl
        · right; rfl
        · right; rfl
  · intro cfg sign
    rfl

/-- C9: the handlers are stateless and deterministic.  First, one step
returns the module state unchanged.  Second, serving a request list
yields exactly the per-request responses computed against the startup
state, so no response depends on earlier requests.  Third, as a
consequence, appending a request to any history yields the same
response for it as serving it alone would. -/
theorem stateless_deterministic :
    (∀ (sign : SignCall → SignOutcome) (st : Config) (req : Request),
      (step sign st req).2 = st) ∧
    (∀ (sign : SignCall → SignOutcome) (st : Config) (reqs : List Request),
      serve sign st reqs = reqs.map (handle_request st sign)) ∧
    (∀ (sign : SignCall → SignOutcome) (st : Config) (reqs : List Request)
      (r : Request),
      serve sign st (reqs ++ [r]) =
        serve sign st reqs ++ [handle_request st sign r]) := by
  have hstep : ∀ (sign : SignCall → SignOutcome) (st : Config) (req : Request),
      (step sign st req).2 = st := fun _ _ _ => rfl
  have hmap : ∀ (sign : SignCall → SignOutcome) (st : Config)
      (reqs : List Request),
      serve sign st reqs = reqs.map (handle_request st sign) := by
    intro sign st reqs
    induction reqs with
    | nil => rfl
    | cons r rs ih => simp [serve, step, ih]
  refine ⟨hstep, hmap, ?_⟩
  intro sign st reqs r
  rw [hmap, hmap, List.map_append]
  rfl

lemma isDig_not_pySpace {c : Char} (h : isDig c = true) : isPySpace c = false := by
  simp only [isDig, Bool.and_eq_true, decide_eq_true_eq] at h
  simp only [isPySpace, Bool.or_eq_false_iff, decide_eq_false_iff_not]
  omega

lemma isDig_ne_plus {c : Char} (h : isDig c = true) : c ≠ '+' := by
  intro hc
  subst hc
  exact absurd h (by decide)

lemma isDig_ne_minus {c : Char} (h : isDig c = true) : c ≠ '-' := by
  intro hc
  subst hc
  exact absurd h (by decide)

lemma dropWhile_pySpace_all_digits (cs : List Char)
    (h : ∀ c ∈ cs, isDig c = true) : cs.dropWhile isPySpace = cs := by
  cases cs with
  | nil => rfl
  | cons c r =>
    have hc := isDig_not_pySpace (h c (List.mem_cons_self c r))
    simp [List.dropWhile_cons, hc]

lemma stripPySpaces_all_digits (cs : List Char)
    (h : ∀ c ∈ cs, isDig c = true) : stripPySpaces cs = cs := by
  unfold stripPySpaces
  rw [dropWhile_pySpace_all_digits cs h]
  rw [dropWhile_pySpace_all_digits cs.reverse
    (fun c hc => h c (List.mem_reverse.mp hc))]
  exact List.reverse_reverse cs

lemma parseDigitsAux_all_digits (cs : List Char)
    (h : ∀ c ∈ cs, isDig c = true) (acc : Nat) :
    parseDigitsAux cs acc =
      some (cs.foldl (fun a c => 10 * a + digitVal c) acc) := by
  induction cs generalizing acc with
  | nil => rfl
  | cons c r ih =>
    have hc : isDig c = true := h c (List.mem_cons_self c r)
    unfold parseDigitsAux
    simp only [hc, if_true, List.foldl_cons]
    exact ih (fun d hd => h d (List.mem_cons_of_mem c hd)) (10 * acc + digitVal c)

lemma pythonInt_all_digits (s : String) (hne : s.data ≠ [])
    (h : ∀ c ∈ s.data, isDig c = true) :
    pythonInt s = some ((decimalValue s.data : Nat) : Int) := by
  unfold pythonInt
  rw [stripPySpaces_all_digits s.data h]
  rcases hcs : s.data with _ | ⟨c, r⟩
  · exact absurd hcs hne
  · have hc : isDig c = true := h c (hcs ▸ List.mem_cons_self c r)
    have hr : ∀ d ∈ r, isDig d = true :=
      fun d hd => h d (hcs ▸ List.mem_cons_of_mem c hd)
    simp only [pythonIntCore, if_neg (isDig_ne_plus hc), if_neg (isDig_ne_minus hc)]
    simp only [parseDigits, hc, if_true]
    rw [parseDigitsAux_all_digits r hr (digitVal c)]
    simp [decimalValue]

/-- C10: when the `PRESIGNED_URL_EXPIRATION` environment variable is
unset, the expiration defaults to 3600; when it is set to a nonempty
string of decimal digits, startup parses it to its decimal value; when
its value is not an integer (anything `int` rejects, e.g. `"abc"` or
`"1.5"`), startup fails. -/
theorem expiration_parsing :
    startup_expiration none = some 3600 ∧
    (∀ s : String, s.data ≠ [] → (∀ c ∈ s.data, isDig c = true) →
      startup_expiration (some s) = some ((decimalValue s.data : Nat) : Int)) ∧
    (∀ s : String, pythonInt s = none → startup_expiration (some s) = none) ∧
    pythonInt "abc" = none ∧ pythonInt "1.5" = none := by
  refine ⟨rfl, ?_, ?_, by decide, by decide⟩
  · intro s hne h
    exact pythonInt_all_digits s hne h
  · intro s h
    simpa [startup_expiration] using h

/-- Witness for C10 at the concrete digit string `"3600"`. -/
theorem expiration_parsing_witness :
    (("3600" : String).data ≠ [] ∧ ∀ c ∈ ("3600" : String).data, isDig c = true) ∧
    startup_expiration (some "3600") = some 3600 :=
  ⟨⟨by decide, by decide⟩, by
    have h := expiration_parsing.2.1 "3600" (by decide) (by decide)
    exact h.trans (by decide)⟩

end Main
